import Mathlib

/-!
Shallow embedding of `src/deposito_bancario.py` (class `ContaBancaria`).

Python's `Decimal` values are modelled as exact rationals (`ℚ`); all the
amounts the program manipulates are finite decimals, which rationals
represent exactly.  The tuple `(sucesso, mensagem)` returned by the
operations is modelled as `Bool × Mensagem`, where `Mensagem` tags each
distinct return site (the Python strings are mutually distinct, so the
tag faithfully captures error identity).  `datetime.now()` is modelled by
passing the formatted timestamp string as an explicit argument `agora`.
Mutation of `self` is modelled by explicit state passing: each operation
returns the result together with the post-state.
-/

/-- A history entry, as built by `_adicionar_historico`:
`{'data': ..., 'tipo': ..., 'valor': ...}`. -/
structure Operacao where
  data : String
  tipo : String
  valor : ℚ
deriving Repr, DecidableEq

/-- The state of `ContaBancaria`: the fields set in `__init__` and
mutated by `depositar` / `sacar`. -/
structure ContaBancaria where
  saldo : ℚ
  limite_saque : ℚ
  limite_saques_diarios : ℤ
  numero_saques : ℕ
  historico : List Operacao
deriving Repr, DecidableEq

/-- Constructor `ContaBancaria.__init__(limite_saque=500,
limite_saques_diarios=3)`. -/
def ContaBancaria.init (limite_saque : ℚ := 500) (limite_saques_diarios : ℤ := 3) :
    ContaBancaria :=
  { saldo := 0
    limite_saque := limite_saque
    limite_saques_diarios := limite_saques_diarios
    numero_saques := 0
    historico := [] }

/-- The argument `valor` of `depositar` / `sacar`: a string or a numeric
value (the numeric case carries the exact value; `Decimal(str(x))` on a
Python float recovers the float's shortest decimal representation
exactly). -/
inductive Entrada where
  | str (s : String)
  | num (q : ℚ)
deriving Repr, DecidableEq

/-- The two `ValueError`s `_validar_valor` can raise. -/
inductive ErroValidacao where
  | formatoInvalido   -- "Formato de valor inválido. Use apenas números."
  | numeroInvalido    -- "Valor deve ser um número válido."
deriving Repr, DecidableEq

/-- Tags for the messages returned by `depositar` and `sacar`, one per
return site; parameters record the state values interpolated into the
Python f-strings. -/
inductive Mensagem where
  | formatoInvalido
  | numeroInvalido
  | valorInvalido                       -- "O valor deve ser positivo."
  | limiteSaquesDiarios (limite : ℤ)    -- "Limite de {..} saques diários excedido."
  | limiteSaque (limite : ℚ)            -- "Valor excede o limite de saque de R$ {..}."
  | saldoInsuficiente (saldo : ℚ)       -- "Saldo insuficiente. Saldo atual: R$ {..}."
  | depositoRealizado (valor : ℚ)       -- "Depósito de R$ {..} realizado com sucesso!"
  | saqueRealizado (valor : ℚ)          -- "Saque de R$ {..} realizado com sucesso!"
deriving Repr, DecidableEq

/-- The message produced for a `ValueError` caught by `except ValueError
as e: return False, str(e)`. -/
def ErroValidacao.mensagem : ErroValidacao → Mensagem
  | .formatoInvalido => .formatoInvalido
  | .numeroInvalido => .numeroInvalido

/-- Whitespace as stripped by Python's `str.strip()` (the ASCII
whitespace characters; the inputs in play contain no exotic Unicode
spacing). -/
def espaco (c : Char) : Bool :=
  c = ' ' || c = '\t' || c = '\n' || c = '\r' || c = '\x0b' || c = '\x0c'

/-- Normalisation `valor.strip().replace(',', '.')` on the character
list: drop whitespace at both ends, then turn every comma into a period
(the pattern is the single character `,`, so `replace` is a character
map). -/
def normalizar (cs : List Char) : List Char :=
  ((((cs.dropWhile espaco).reverse.dropWhile espaco).reverse).map
    fun c => if c = ',' then '.' else c)

/-- The regex `^\d+(\.\d{1,2})?$` from `_validar_valor`, on the list of
characters: one or more digits, optionally followed by a period and one
or two digits.  `List.span` takes the maximal digit prefix, which is
exactly what the greedy `\d+` consumes (the next character, if any, must
be the period). -/
def casaPadraoValor (cs : List Char) : Bool :=
  let (ds, resto) := cs.span (·.isDigit)
  decide (ds ≠ []) &&
    match resto with
    | [] => true
    | p :: fs =>
        decide (p = '.') && decide (fs ≠ []) && decide (fs.length ≤ 2) &&
          fs.all (·.isDigit)

/-- Value of a digit string, most significant first. -/
def digitosParaNat (ds : List Char) : ℕ :=
  ds.foldl (fun n c => n * 10 + (c.toNat - '0'.toNat)) 0

/-- Conversion `Decimal(s)` on a string accepted by the regex: integer
part plus fractional digits scaled down.  (Only applied to strings that
passed `casaPadraoValor`, where the separator, when present, is the
head of the non-digit remainder.) -/
def decimalDe (cs : List Char) : ℚ :=
  let (ds, resto) := cs.span (·.isDigit)
  match resto with
  | _ :: fs => (digitosParaNat ds : ℚ) + (digitosParaNat fs : ℚ) / (10 ^ fs.length)
  | [] => (digitosParaNat ds : ℚ)

/-- Validation `_validar_valor`: strings are trimmed, commas become periods, and the
regex is checked before conversion; a non-string is converted directly
(`Decimal(str(valor))`, exact for the numeric inputs the program
receives).  Raising `ValueError` is modelled by `Except.error`. -/
def ContaBancaria.validar_valor : Entrada → Except ErroValidacao ℚ
  | .str s =>
      let cs := normalizar s.toList
      if casaPadraoValor cs then
        .ok (decimalDe cs)
      else
        .error .formatoInvalido
  | .num q => .ok q

/-- Helper `_adicionar_historico(tipo, valor)`: append one entry. -/
def ContaBancaria.adicionar_historico (c : ContaBancaria) (agora tipo : String)
    (valor : ℚ) : ContaBancaria :=
  { c with historico := c.historico ++ [⟨agora, tipo, valor⟩] }

/-- Operation `depositar(valor)`: validate, reject non-positive amounts, otherwise
add to the balance and record a deposit.  Returns the `(sucesso,
mensagem)` pair together with the post-state. -/
def ContaBancaria.depositar (c : ContaBancaria) (valor : Entrada) (agora : String) :
    (Bool × Mensagem) × ContaBancaria :=
  match ContaBancaria.validar_valor valor with
  | .error e => ((false, e.mensagem), c)
  | .ok valor_decimal =>
      if valor_decimal ≤ 0 then
        ((false, .valorInvalido), c)
      else
        ((true, .depositoRealizado valor_decimal),
          ({ c with saldo := c.saldo + valor_decimal
             }.adicionar_historico agora "DEPÓSITO" valor_decimal))

/-- Operation `sacar(valor)`: validate, then the four checks in source order
(non-positive amount, daily count, per-withdrawal limit, balance);
on success subtract from the balance, bump the counter and record a
withdrawal. -/
def ContaBancaria.sacar (c : ContaBancaria) (valor : Entrada) (agora : String) :
    (Bool × Mensagem) × ContaBancaria :=
  match ContaBancaria.validar_valor valor with
  | .error e => ((false, e.mensagem), c)
  | .ok valor_decimal =>
      if valor_decimal ≤ 0 then
        ((false, .valorInvalido), c)
      else if (c.numero_saques : ℤ) ≥ c.limite_saques_diarios then
        ((false, .limiteSaquesDiarios c.limite_saques_diarios), c)
      else if valor_decimal > c.limite_saque then
        ((false, .limiteSaque c.limite_saque), c)
      else if valor_decimal > c.saldo then
        ((false, .saldoInsuficiente c.saldo), c)
      else
        ((true, .saqueRealizado valor_decimal),
          ({ c with saldo := c.saldo - valor_decimal,
                    numero_saques := c.numero_saques + 1
             }.adicionar_historico agora "SAQUE" valor_decimal))

/-- A run of `n` spaces, for field padding. -/
def espacos (n : ℕ) : String :=
  String.mk (List.replicate n ' ')

/-- Python's right-alignment `{x:>w}`: pad on the left with spaces up to
width `w` (no padding when the text is already at least that wide). -/
def alinharDireita (w : ℕ) (s : String) : String :=
  espacos (w - s.length) ++ s

/-- Python's centring `{x:^w}` (`str.center`): split the margin in two,
the extra space going to the left exactly when both the margin and the
width are odd (CPython's rule). -/
def centralizar (w : ℕ) (s : String) : String :=
  if w ≤ s.length then s
  else
    let margem := w - s.length
    let esq := margem / 2 + (if margem % 2 = 1 ∧ w % 2 = 1 then 1 else 0)
    espacos esq ++ s ++ espacos (margem - esq)

/-- Rounding half-to-even to an integer, the rounding Python applies
when formatting a `Decimal` with `.2f` (exact on the at-most-2-decimal
values the program stores). -/
def arredondarMeioPar (q : ℚ) : ℤ :=
  let f := ⌊q⌋
  if q - f < 1 / 2 then f
  else if q - f > 1 / 2 then f + 1
  else if f % 2 = 0 then f else f + 1

/-- Formatting `{x:.2f}` of a decimal value: round to cents half-even,
then print with exactly two fractional digits. -/
def formatar2f (q : ℚ) : String :=
  let n := arredondarMeioPar (q * 100)
  let sinal := if n < 0 then "-" else ""
  let m := n.natAbs
  sinal ++ toString (m / 100) ++ "." ++
    (if m % 100 < 10 then "0" else "") ++ toString (m % 100)

/-- The separator `"=" * 50`. -/
def linha_separadora : String :=
  String.mk (List.replicate 50 '=')

/-- One line of the statement body:
`f"{operacao['data']} | {operacao['tipo']:>8} | R$ {operacao['valor']:>10.2f}\n"`. -/
def linhaOperacao (op : Operacao) : String :=
  op.data ++ " | " ++ alinharDireita 8 op.tipo ++ " | R$ " ++
    alinharDireita 10 (formatar2f op.valor) ++ "\n"

/-- Operation `obter_extrato()`: build the fixed-width report (header,
body lines in history order or a placeholder, balance and counter
footer).  The method reads `self` and assigns nothing, so its embedding
returns the state unchanged alongside the text. -/
def ContaBancaria.obter_extrato (c : ContaBancaria) : String × ContaBancaria :=
  let extrato := "\n" ++ linha_separadora ++ "\n"
  let extrato := extrato ++ centralizar 50 "EXTRATO BANCÁRIO" ++ "\n"
  let extrato := extrato ++ linha_separadora ++ "\n"
  let extrato :=
    if c.historico.isEmpty then
      extrato ++ "Nenhuma movimentação realizada.\n"
    else
      c.historico.foldl (fun e op => e ++ linhaOperacao op) extrato
  let extrato := extrato ++ linha_separadora ++ "\n"
  let extrato := extrato ++ "SALDO ATUAL: R$ " ++ alinharDireita 10 (formatar2f c.saldo) ++ "\n"
  let extrato := extrato ++ "SAQUES REALIZADOS HOJE: " ++ toString c.numero_saques ++ "/" ++
    toString c.limite_saques_diarios ++ "\n"
  let extrato := extrato ++ linha_separadora ++ "\n"
  (extrato, c)

/-- The fixed header of the statement, up to and including the line
before the transaction list. -/
def cabecalhoExtrato : String :=
  "\n" ++ linha_separadora ++ "\n" ++ centralizar 50 "EXTRATO BANCÁRIO" ++ "\n" ++
    linha_separadora ++ "\n"

/-- The footer of the statement: separator, balance, withdrawals
used / limit, separator. -/
def rodapeExtrato (c : ContaBancaria) : String :=
  linha_separadora ++ "\n" ++ "SALDO ATUAL: R$ " ++ alinharDireita 10 (formatar2f c.saldo) ++
    "\n" ++ "SAQUES REALIZADOS HOJE: " ++ toString c.numero_saques ++ "/" ++
    toString c.limite_saques_diarios ++ "\n" ++ linha_separadora ++ "\n"

/-- One call the driver can make on the account: a deposit or a
withdrawal attempt, with the amount supplied and the timestamp at which
it happens. -/
inductive Op where
  | dep (valor : Entrada) (agora : String)
  | saq (valor : Entrada) (agora : String)

/-- The state reached after one call (the returned message is
discarded). -/
def passo (c : ContaBancaria) : Op → ContaBancaria
  | .dep v t => (c.depositar v t).2
  | .saq v t => (c.sacar v t).2

/-- The state reached after a sequence of calls on `c`. -/
def executar (c : ContaBancaria) (ops : List Op) : ContaBancaria :=
  ops.foldl passo c

/-- Sum of the amounts of the history entries of the given kind
(`"DEPÓSITO"` or `"SAQUE"`). -/
def somaPorTipo (tipo : String) (h : List Operacao) : ℚ :=
  ((h.filter fun op => op.tipo = tipo).map Operacao.valor).sum

/-- Invariant relating balance and history: balance is the deposits minus the withdrawals and
never negative. -/
def invarianteSaldo (c : ContaBancaria) : Prop :=
  c.saldo = somaPorTipo "DEPÓSITO" c.historico - somaPorTipo "SAQUE" c.historico
    ∧ 0 ≤ c.saldo

/-- Invariant for the withdrawal counter: the configured daily limit is unchanged and the
counter stays at or below it. -/
def invarianteSaques (ld : ℤ) (c : ContaBancaria) : Prop :=
  c.limite_saques_diarios = ld ∧ (c.numero_saques : ℤ) ≤ ld

theorem validar_valor_str (s : String) :
    ContaBancaria.validar_valor (.str s) =
      if casaPadraoValor (normalizar s.toList) then
        .ok (decimalDe (normalizar s.toList))
      else
        .error .formatoInvalido := rfl

theorem validar_ok (s : String) (cs : List Char) (h : normalizar s.toList = cs)
    (hm : casaPadraoValor cs = true) :
    ContaBancaria.validar_valor (.str s) = .ok (decimalDe cs) := by
  rw [validar_valor_str, h, if_pos hm]

theorem validar_err (s : String) (h : casaPadraoValor (normalizar s.toList) = false) :
    ContaBancaria.validar_valor (.str s) = .error .formatoInvalido := by
  rw [validar_valor_str, if_neg]
  simp only [String.toList] at h
  simp [h]

theorem decimalDe_frac (cs ds fs : List Char) (p : Char)
    (h : cs.span (·.isDigit) = (ds, p :: fs)) :
    decimalDe cs = (digitosParaNat ds : ℚ) + (digitosParaNat fs : ℚ) / 10 ^ fs.length := by
  simp only [decimalDe, h]

theorem decimalDe_int (cs ds : List Char) (h : cs.span (·.isDigit) = (ds, [])) :
    decimalDe cs = (digitosParaNat ds : ℚ) := by
  simp only [decimalDe, h]

theorem valida_10_5 : ContaBancaria.validar_valor (.str "10.5") = .ok (21 / 2) := by
  rw [validar_ok "10.5" (['1', '0', '.', '5']) (by decide) (by decide),
    decimalDe_frac _ (['1', '0']) (['5']) '.' (by decide)]
  norm_num [(by decide : digitosParaNat ['1', '0'] = 10),
    (by decide : digitosParaNat ['5'] = 5)]

theorem valida_10v5 : ContaBancaria.validar_valor (.str "10,5") = .ok (21 / 2) := by
  rw [validar_ok "10,5" (['1', '0', '.', '5']) (by decide) (by decide),
    decimalDe_frac _ (['1', '0']) (['5']) '.' (by decide)]
  norm_num [(by decide : digitosParaNat ['1', '0'] = 10),
    (by decide : digitosParaNat ['5'] = 5)]

/-- C4: parsing the strings "10.5" and "10,5" yields the same internal
value 10.5 (comma normalised to period), while "10.555", "-5", "abc"
and "" all fail with the invalid-format error. -/
theorem parse_examples :
    ContaBancaria.validar_valor (.str "10.5") = .ok (21 / 2)
  ∧ ContaBancaria.validar_valor (.str "10,5") = .ok (21 / 2)
  ∧ ContaBancaria.validar_valor (.str "10.555") = .error .formatoInvalido
  ∧ ContaBancaria.validar_valor (.str "-5") = .error .formatoInvalido
  ∧ ContaBancaria.validar_valor (.str "abc") = .error .formatoInvalido
  ∧ ContaBancaria.validar_valor (.str "") = .error .formatoInvalido := by
  refine ⟨valida_10_5, valida_10v5, ?_, ?_, ?_, ?_⟩ <;>
    apply validar_err <;> decide

theorem depositar_parse_falha (c : ContaBancaria) (v : Entrada) (t : String)
    (e : ErroValidacao) (hv : ContaBancaria.validar_valor v = .error e) :
    c.depositar v t = ((false, e.mensagem), c) := by
  simp only [ContaBancaria.depositar, hv]

theorem depositar_nao_positivo (c : ContaBancaria) (v : Entrada) (t : String) (q : ℚ)
    (hv : ContaBancaria.validar_valor v = .ok q) (hq : q ≤ 0) :
    c.depositar v t = ((false, .valorInvalido), c) := by
  simp only [ContaBancaria.depositar, hv, if_pos hq]

theorem depositar_sucesso (c : ContaBancaria) (v : Entrada) (t : String) (q : ℚ)
    (hv : ContaBancaria.validar_valor v = .ok q) (hq : 0 < q) :
    c.depositar v t = ((true, .depositoRealizado q),
      { c with saldo := c.saldo + q, historico := c.historico ++ [⟨t, "DEPÓSITO", q⟩] }) := by
  simp only [ContaBancaria.depositar, hv, if_neg (not_le.mpr hq),
    ContaBancaria.adicionar_historico]

theorem sacar_parse_falha (c : ContaBancaria) (v : Entrada) (t : String)
    (e : ErroValidacao) (hv : ContaBancaria.validar_valor v = .error e) :
    c.sacar v t = ((false, e.mensagem), c) := by
  simp only [ContaBancaria.sacar, hv]

theorem sacar_nao_positivo (c : ContaBancaria) (v : Entrada) (t : String) (q : ℚ)
    (hv : ContaBancaria.validar_valor v = .ok q) (hq : q ≤ 0) :
    c.sacar v t = ((false, .valorInvalido), c) := by
  simp only [ContaBancaria.sacar, hv, if_pos hq]

theorem sacar_limite_diario (c : ContaBancaria) (v : Entrada) (t : String) (q : ℚ)
    (hv : ContaBancaria.validar_valor v = .ok q) (hq : 0 < q)
    (hn : c.limite_saques_diarios ≤ (c.numero_saques : ℤ)) :
    c.sacar v t = ((false, .limiteSaquesDiarios c.limite_saques_diarios), c) := by
  simp only [ContaBancaria.sacar, hv, if_neg (not_le.mpr hq), ge_iff_le, if_pos hn]

theorem sacar_limite_valor (c : ContaBancaria) (v : Entrada) (t : String) (q : ℚ)
    (hv : ContaBancaria.validar_valor v = .ok q) (hq : 0 < q)
    (hn : (c.numero_saques : ℤ) < c.limite_saques_diarios)
    (hl : c.limite_saque < q) :
    c.sacar v t = ((false, .limiteSaque c.limite_saque), c) := by
  simp only [ContaBancaria.sacar, hv, if_neg (not_le.mpr hq), ge_iff_le,
    if_neg (not_le.mpr hn), gt_iff_lt, if_pos hl]

theorem sacar_saldo_insuficiente (c : ContaBancaria) (v : Entrada) (t : String) (q : ℚ)
    (hv : ContaBancaria.validar_valor v = .ok q) (hq : 0 < q)
    (hn : (c.numero_saques : ℤ) < c.limite_saques_diarios)
    (hl : q ≤ c.limite_saque) (hs : c.saldo < q) :
    c.sacar v t = ((false, .saldoInsuficiente c.saldo), c) := by
  simp only [ContaBancaria.sacar, hv, if_neg (not_le.mpr hq), ge_iff_le,
    if_neg (not_le.mpr hn), gt_iff_lt, if_neg (not_lt.mpr hl), if_pos hs]

theorem sacar_sucesso (c : ContaBancaria) (v : Entrada) (t : String) (q : ℚ)
    (hv : ContaBancaria.validar_valor v = .ok q) (hq : 0 < q)
    (hn : (c.numero_saques : ℤ) < c.limite_saques_diarios)
    (hl : q ≤ c.limite_saque) (hs : q ≤ c.saldo) :
    c.sacar v t = ((true, .saqueRealizado q),
      { c with saldo := c.saldo - q, numero_saques := c.numero_saques + 1,
               historico := c.historico ++ [⟨t, "SAQUE", q⟩] }) := by
  simp only [ContaBancaria.sacar, hv, if_neg (not_le.mpr hq), ge_iff_le,
    if_neg (not_le.mpr hn), gt_iff_lt, if_neg (not_lt.mpr hl), if_neg (not_lt.mpr hs),
    ContaBancaria.adicionar_historico]

/-- C2: `sacar` applies its checks in fixed short-circuit order on the
parsed amount, the first failing check determining the error: amount
`<= 0` gives the invalid-amount error; then daily count `>=` limit gives
the daily-limit error; then amount `>` per-withdrawal limit gives the
per-transaction-limit error; then amount `>` balance gives
insufficient-funds; if all four pass the withdrawal succeeds with its
full effect. -/
theorem sacar_ordem_validacao (c : ContaBancaria) (v : Entrada) (t : String) (q : ℚ)
    (hv : ContaBancaria.validar_valor v = .ok q) :
    (q ≤ 0 → c.sacar v t = ((false, .valorInvalido), c))
  ∧ (0 < q → c.limite_saques_diarios ≤ (c.numero_saques : ℤ) →
      c.sacar v t = ((false, .limiteSaquesDiarios c.limite_saques_diarios), c))
  ∧ (0 < q → (c.numero_saques : ℤ) < c.limite_saques_diarios → c.limite_saque < q →
      c.sacar v t = ((false, .limiteSaque c.limite_saque), c))
  ∧ (0 < q → (c.numero_saques : ℤ) < c.limite_saques_diarios → q ≤ c.limite_saque →
      c.saldo < q → c.sacar v t = ((false, .saldoInsuficiente c.saldo), c))
  ∧ (0 < q → (c.numero_saques : ℤ) < c.limite_saques_diarios → q ≤ c.limite_saque →
      q ≤ c.saldo → c.sacar v t = ((true, .saqueRealizado q),
        { c with saldo := c.saldo - q, numero_saques := c.numero_saques + 1,
                 historico := c.historico ++ [⟨t, "SAQUE", q⟩] })) :=
  ⟨fun h => sacar_nao_positivo c v t q hv h,
   fun h1 h2 => sacar_limite_diario c v t q hv h1 h2,
   fun h1 h2 h3 => sacar_limite_valor c v t q hv h1 h2 h3,
   fun h1 h2 h3 h4 => sacar_saldo_insuficiente c v t q hv h1 h2 h3 h4,
   fun h1 h2 h3 h4 => sacar_sucesso c v t q hv h1 h2 h3 h4⟩

/-- C3: whenever `depositar` or `sacar` returns a failure flag, the
account state is exactly the state before the call - validation fully
precedes any mutation. -/
theorem falha_preserva_estado (c : ContaBancaria) (v : Entrada) (t : String) :
    ((c.depositar v t).1.1 = false → (c.depositar v t).2 = c)
  ∧ ((c.sacar v t).1.1 = false → (c.sacar v t).2 = c) := by
  constructor
  · intro h
    unfold ContaBancaria.depositar at *
    cases hv : ContaBancaria.validar_valor v with
    | error e => simp [hv]
    | ok q =>
        simp only [hv] at h ⊢
        by_cases hq : q ≤ 0
        · simp [if_pos hq]
        · simp [if_neg hq] at h
  · intro h
    unfold ContaBancaria.sacar at *
    cases hv : ContaBancaria.validar_valor v with
    | error e => simp [hv]
    | ok q =>
        simp only [hv] at h ⊢
        by_cases hq : q ≤ 0
        · simp [if_pos hq]
        · by_cases hn : c.limite_saques_diarios ≤ (c.numero_saques : ℤ)
          · simp [if_neg hq, hn]
          · by_cases hl : c.limite_saque < q
            · simp [if_neg hq, hn, hl]
            · by_cases hs : c.saldo < q
              · simp [if_neg hq, hn, hl, hs]
              · simp [if_neg hq, hn, hl, hs] at h

/-- C10: numeric (non-string) inputs skip the format pattern entirely:
any numeric value validates to itself exactly, a non-positive numeric
amount fails with the invalid-amount error (not invalid-format) in both
operations, and a positive numeric amount - even with more than two
fractional digits - is deposited and applied exactly. -/
theorem valor_numerico_direto (q : ℚ) (c : ContaBancaria) (t : String) :
    ContaBancaria.validar_valor (.num q) = .ok q
  ∧ (q ≤ 0 →
      c.depositar (.num q) t = ((false, .valorInvalido), c)
    ∧ c.sacar (.num q) t = ((false, .valorInvalido), c))
  ∧ (0 < q → c.depositar (.num q) t = ((true, .depositoRealizado q),
      { c with saldo := c.saldo + q, historico := c.historico ++ [⟨t, "DEPÓSITO", q⟩] })) :=
  ⟨rfl,
   fun h => ⟨depositar_nao_positivo c _ t q rfl h, sacar_nao_positivo c _ t q rfl h⟩,
   fun h => depositar_sucesso c _ t q rfl h⟩

theorem executar_nil (c : ContaBancaria) : executar c [] = c := rfl

theorem executar_cons (c : ContaBancaria) (op : Op) (ops : List Op) :
    executar c (op :: ops) = executar (passo c op) ops := rfl

theorem executar_inv (P : ContaBancaria → Prop)
    (hP : ∀ c op, P c → P (passo c op)) :
    ∀ (ops : List Op) (c : ContaBancaria), P c → P (executar c ops)
  | [], _, hc => hc
  | op :: ops, c, hc => executar_inv P hP ops (passo c op) (hP c op hc)

theorem somaPorTipo_append (tipo : String) (h : List Operacao) (op : Operacao) :
    somaPorTipo tipo (h ++ [op]) =
      somaPorTipo tipo h + (if op.tipo = tipo then op.valor else 0) := by
  by_cases ht : op.tipo = tipo <;>
    simp [somaPorTipo, List.filter_append, ht]

theorem passo_invarianteSaldo (c : ContaBancaria) (op : Op)
    (hc : invarianteSaldo c) : invarianteSaldo (passo c op) := by
  obtain ⟨hs, hpos⟩ := hc
  cases op with
  | dep v t =>
      show invarianteSaldo (c.depositar v t).2
      cases hv : ContaBancaria.validar_valor v with
      | error e => rw [depositar_parse_falha c v t e hv]; exact ⟨hs, hpos⟩
      | ok q =>
          by_cases hq : q ≤ 0
          · rw [depositar_nao_positivo c v t q hv hq]; exact ⟨hs, hpos⟩
          · push_neg at hq
            rw [depositar_sucesso c v t q hv hq]
            constructor
            · simp [somaPorTipo_append, hs]
              ring
            · simp only
              positivity
  | saq v t =>
      show invarianteSaldo (c.sacar v t).2
      cases hv : ContaBancaria.validar_valor v with
      | error e => rw [sacar_parse_falha c v t e hv]; exact ⟨hs, hpos⟩
      | ok q =>
          by_cases hq : q ≤ 0
          · rw [sacar_nao_positivo c v t q hv hq]; exact ⟨hs, hpos⟩
          · push_neg at hq
            by_cases hn : c.limite_saques_diarios ≤ (c.numero_saques : ℤ)
            · rw [sacar_limite_diario c v t q hv hq hn]; exact ⟨hs, hpos⟩
            · push_neg at hn
              by_cases hl : c.limite_saque < q
              · rw [sacar_limite_valor c v t q hv hq hn hl]; exact ⟨hs, hpos⟩
              · push_neg at hl
                by_cases hsa : c.saldo < q
                · rw [sacar_saldo_insuficiente c v t q hv hq hn hl hsa]; exact ⟨hs, hpos⟩
                · push_neg at hsa
                  rw [sacar_sucesso c v t q hv hq hn hl hsa]
                  constructor
                  · simp [somaPorTipo_append, hs]
                    ring
                  · simp only
                    linarith

theorem executar_depositos (t : String) :
    ∀ (ds : List ℚ) (c : ContaBancaria), (∀ d ∈ ds, 0 < d) →
      (executar c (ds.map fun d => Op.dep (.num d) t)).saldo = c.saldo + ds.sum
  | [], c, _ => by simp [executar_nil]
  | d :: ds, c, h => by
      have hd : 0 < d := h d (by simp)
      rw [List.map_cons, executar_cons,
        executar_depositos t ds (passo c (.dep (.num d) t))
          (fun x hx => h x (by simp [hx]))]
      show ((c.depositar (.num d) t).2).saldo + ds.sum = _
      rw [depositar_sucesso c (.num d) t d rfl hd]
      simp
      ring

/-- C1: for every sequence of deposit and withdraw calls from a fresh
account, the balance equals the sum of recorded deposit amounts minus
the sum of recorded withdrawal amounts and is never negative; in
particular after successful deposits `d1..dn` (and no withdrawals) the
balance is their sum. -/
theorem saldo_igual_depositos_menos_saques (lim : ℚ) (ld : ℤ) (ops : List Op)
    (ds : List ℚ) (t : String) (hds : ∀ d ∈ ds, 0 < d) :
    ((executar (ContaBancaria.init lim ld) ops).saldo =
        somaPorTipo "DEPÓSITO" (executar (ContaBancaria.init lim ld) ops).historico -
          somaPorTipo "SAQUE" (executar (ContaBancaria.init lim ld) ops).historico
      ∧ 0 ≤ (executar (ContaBancaria.init lim ld) ops).saldo)
  ∧ (executar (ContaBancaria.init lim ld) (ds.map fun d => Op.dep (.num d) t)).saldo
      = ds.sum := by
  refine ⟨executar_inv invarianteSaldo passo_invarianteSaldo ops _ ?_, ?_⟩
  · exact ⟨by simp [ContaBancaria.init, somaPorTipo], by simp [ContaBancaria.init]⟩
  · rw [executar_depositos t ds _ hds]
    simp [ContaBancaria.init]

theorem passo_invarianteSaques (ld : ℤ) (c : ContaBancaria) (op : Op)
    (hc : invarianteSaques ld c) : invarianteSaques ld (passo c op) := by
  obtain ⟨hl, hn⟩ := hc
  cases op with
  | dep v t =>
      show invarianteSaques ld (c.depositar v t).2
      cases hv : ContaBancaria.validar_valor v with
      | error e => rw [depositar_parse_falha c v t e hv]; exact ⟨hl, hn⟩
      | ok q =>
          by_cases hq : q ≤ 0
          · rw [depositar_nao_positivo c v t q hv hq]; exact ⟨hl, hn⟩
          · push_neg at hq
            rw [depositar_sucesso c v t q hv hq]
            exact ⟨hl, hn⟩
  | saq v t =>
      show invarianteSaques ld (c.sacar v t).2
      cases hv : ContaBancaria.validar_valor v with
      | error e => rw [sacar_parse_falha c v t e hv]; exact ⟨hl, hn⟩
      | ok q =>
          by_cases hq : q ≤ 0
          · rw [sacar_nao_positivo c v t q hv hq]; exact ⟨hl, hn⟩
          · push_neg at hq
            by_cases hlim : c.limite_saques_diarios ≤ (c.numero_saques : ℤ)
            · rw [sacar_limite_diario c v t q hv hq hlim]; exact ⟨hl, hn⟩
            · push_neg at hlim
              by_cases hv2 : c.limite_saque < q
              · rw [sacar_limite_valor c v t q hv hq hlim hv2]; exact ⟨hl, hn⟩
              · push_neg at hv2
                by_cases hs : c.saldo < q
                · rw [sacar_saldo_insuficiente c v t q hv hq hlim hv2 hs]; exact ⟨hl, hn⟩
                · push_neg at hs
                  rw [sacar_sucesso c v t q hv hq hlim hv2 hs]
                  refine ⟨hl, ?_⟩
                  simp only
                  push_cast
                  omega

theorem depositar_numero_saques (c : ContaBancaria) (v : Entrada) (t : String) :
    (c.depositar v t).2.numero_saques = c.numero_saques := by
  cases hv : ContaBancaria.validar_valor v with
  | error e => rw [depositar_parse_falha c v t e hv]
  | ok q =>
      by_cases hq : q ≤ 0
      · rw [depositar_nao_positivo c v t q hv hq]
      · push_neg at hq
        rw [depositar_sucesso c v t q hv hq]

theorem sacar_numero_saques (c : ContaBancaria) (v : Entrada) (t : String) :
    ((c.sacar v t).1.1 = false → (c.sacar v t).2.numero_saques = c.numero_saques)
  ∧ ((c.sacar v t).1.1 = true →
      (c.sacar v t).2.numero_saques = c.numero_saques + 1
    ∧ (c.numero_saques : ℤ) < c.limite_saques_diarios) := by
  cases hv : ContaBancaria.validar_valor v with
  | error e => rw [sacar_parse_falha c v t e hv]; simp
  | ok q =>
      by_cases hq : q ≤ 0
      · rw [sacar_nao_positivo c v t q hv hq]; simp
      · push_neg at hq
        by_cases hlim : c.limite_saques_diarios ≤ (c.numero_saques : ℤ)
        · rw [sacar_limite_diario c v t q hv hq hlim]; simp
        · push_neg at hlim
          by_cases hv2 : c.limite_saque < q
          · rw [sacar_limite_valor c v t q hv hq hlim hv2]; simp
          · push_neg at hv2
            by_cases hs : c.saldo < q
            · rw [sacar_saldo_insuficiente c v t q hv hq hlim hv2 hs]; simp
            · push_neg at hs
              rw [sacar_sucesso c v t q hv hq hlim hv2 hs]
              simpa using hlim

/-- C7: for an account created with a non-negative daily limit the
withdrawal counter starts at 0, never exceeds the limit over any
sequence of operations, is untouched by deposits and by failed
withdrawals, and is incremented by exactly one by a successful
withdrawal (which requires the counter to be below the limit). -/
theorem contador_saques_limitado (lim : ℚ) (ld : ℤ) (hld : 0 ≤ ld) (ops : List Op)
    (c : ContaBancaria) (v : Entrada) (t : String) :
    (ContaBancaria.init lim ld).numero_saques = 0
  ∧ ((executar (ContaBancaria.init lim ld) ops).numero_saques : ℤ) ≤ ld
  ∧ (c.depositar v t).2.numero_saques = c.numero_saques
  ∧ ((c.sacar v t).1.1 = false → (c.sacar v t).2.numero_saques = c.numero_saques)
  ∧ ((c.sacar v t).1.1 = true →
      (c.sacar v t).2.numero_saques = c.numero_saques + 1
    ∧ (c.numero_saques : ℤ) < c.limite_saques_diarios) :=
  ⟨rfl,
   (executar_inv (invarianteSaques ld) (passo_invarianteSaques ld) ops _
     ⟨rfl, by simpa [ContaBancaria.init] using hld⟩).2,
   depositar_numero_saques c v t,
   (sacar_numero_saques c v t).1,
   (sacar_numero_saques c v t).2⟩

theorem valida_int (s : String) (ds : List Char) (n : ℕ)
    (h1 : normalizar s.toList = ds) (h2 : casaPadraoValor ds = true)
    (h3 : ds.span (·.isDigit) = (ds, [])) (h4 : digitosParaNat ds = n) :
    ContaBancaria.validar_valor (.str s) = .ok (n : ℚ) := by
  rw [validar_ok s ds h1 h2, decimalDe_int _ _ h3, h4]

theorem valida_frac (s : String) (cs ds fs : List Char) (p : Char) (a b : ℕ) (q : ℚ)
    (h1 : normalizar s.toList = cs) (h2 : casaPadraoValor cs = true)
    (h3 : cs.span (·.isDigit) = (ds, p :: fs))
    (h4 : digitosParaNat ds = a) (h5 : digitosParaNat fs = b)
    (h6 : (a : ℚ) + (b : ℚ) / 10 ^ fs.length = q) :
    ContaBancaria.validar_valor (.str s) = .ok q := by
  rw [validar_ok s cs h1 h2, decimalDe_frac _ _ _ _ h3, h4, h5, h6]

theorem valida_500 : ContaBancaria.validar_valor (.str "500") = .ok 500 := by
  have := valida_int "500" (['5', '0', '0']) 500 (by decide) (by decide) (by decide) (by decide)
  simpa using this

theorem valida_1 : ContaBancaria.validar_valor (.str "1") = .ok 1 := by
  have := valida_int "1" (['1']) 1 (by decide) (by decide) (by decide) (by decide)
  simpa using this

theorem valida_abc : ContaBancaria.validar_valor (.str "abc") = .error .formatoInvalido :=
  validar_err _ (by decide)

/-- C5 (amended): once the daily withdrawal count has reached the
configured limit, the next `sacar` call fails with the daily-limit
error for every amount that parses to a positive value, regardless of
the balance. -/
theorem saque_apos_limite_diario (c : ContaBancaria) (v : Entrada) (t : String) (q : ℚ)
    (hv : ContaBancaria.validar_valor v = .ok q) (hq : 0 < q)
    (hn : c.limite_saques_diarios ≤ (c.numero_saques : ℤ)) :
    c.sacar v t = ((false, .limiteSaquesDiarios c.limite_saques_diarios), c) :=
  sacar_limite_diario c v t q hv hq hn

/-- C5 counterexample: after three successful withdrawals on a fresh
default account (daily limit 3), a fourth attempt with the amount
"abc" returns the invalid-format error, not the daily-limit error - so
the original "regardless of the amount supplied" fails for amounts that
do not parse. -/
theorem saque_apos_limite_nao_sempre_limite_diario :
    (executar ContaBancaria.init
        [.dep (.str "500") "t0", .saq (.str "1") "t1",
         .saq (.str "1") "t2", .saq (.str "1") "t3"]).numero_saques = 3
  ∧ (executar ContaBancaria.init
        [.dep (.str "500") "t0", .saq (.str "1") "t1",
         .saq (.str "1") "t2", .saq (.str "1") "t3"]).limite_saques_diarios = 3
  ∧ ((executar ContaBancaria.init
        [.dep (.str "500") "t0", .saq (.str "1") "t1",
         .saq (.str "1") "t2", .saq (.str "1") "t3"]).sacar (.str "abc") "t4").1
      = (false, .formatoInvalido)
  ∧ ((executar ContaBancaria.init
        [.dep (.str "500") "t0", .saq (.str "1") "t1",
         .saq (.str "1") "t2", .saq (.str "1") "t3"]).sacar (.str "abc") "t4").1
      ≠ (false, .limiteSaquesDiarios 3) := by
  have e1 : (ContaBancaria.init.depositar (.str "500") "t0").2 =
      (⟨500, 500, 3, 0, [⟨"t0", "DEPÓSITO", 500⟩]⟩ : ContaBancaria) := by
    rw [depositar_sucesso _ _ _ 500 valida_500 (by norm_num)]
    norm_num [ContaBancaria.init]
  have e2 : ((⟨500, 500, 3, 0, [⟨"t0", "DEPÓSITO", 500⟩]⟩ : ContaBancaria).sacar
        (.str "1") "t1").2 =
      (⟨499, 500, 3, 1, [⟨"t0", "DEPÓSITO", 500⟩, ⟨"t1", "SAQUE", 1⟩]⟩ : ContaBancaria) := by
    rw [sacar_sucesso _ _ _ 1 valida_1 (by norm_num) (by norm_num) (by norm_num) (by norm_num)]
    norm_num
  have e3 : ((⟨499, 500, 3, 1, [⟨"t0", "DEPÓSITO", 500⟩, ⟨"t1", "SAQUE", 1⟩]⟩ :
        ContaBancaria).sacar (.str "1") "t2").2 =
      (⟨498, 500, 3, 2, [⟨"t0", "DEPÓSITO", 500⟩, ⟨"t1", "SAQUE", 1⟩,
        ⟨"t2", "SAQUE", 1⟩]⟩ : ContaBancaria) := by
    rw [sacar_sucesso _ _ _ 1 valida_1 (by norm_num) (by norm_num) (by norm_num) (by norm_num)]
    norm_num
  have e4 : ((⟨498, 500, 3, 2, [⟨"t0", "DEPÓSITO", 500⟩, ⟨"t1", "SAQUE", 1⟩,
        ⟨"t2", "SAQUE", 1⟩]⟩ : ContaBancaria).sacar (.str "1") "t3").2 =
      (⟨497, 500, 3, 3, [⟨"t0", "DEPÓSITO", 500⟩, ⟨"t1", "SAQUE", 1⟩,
        ⟨"t2", "SAQUE", 1⟩, ⟨"t3", "SAQUE", 1⟩]⟩ : ContaBancaria) := by
    rw [sacar_sucesso _ _ _ 1 valida_1 (by norm_num) (by norm_num) (by norm_num) (by norm_num)]
    norm_num
  have hc : executar ContaBancaria.init
        [.dep (.str "500") "t0", .saq (.str "1") "t1",
         .saq (.str "1") "t2", .saq (.str "1") "t3"] =
      (⟨497, 500, 3, 3, [⟨"t0", "DEPÓSITO", 500⟩, ⟨"t1", "SAQUE", 1⟩,
        ⟨"t2", "SAQUE", 1⟩, ⟨"t3", "SAQUE", 1⟩]⟩ : ContaBancaria) := by
    simp only [executar, List.foldl, passo]
    rw [e1, e2, e3, e4]
  rw [hc]
  refine ⟨rfl, rfl, ?_, ?_⟩
  · rw [sacar_parse_falha _ _ _ _ valida_abc]
    rfl
  · rw [sacar_parse_falha _ _ _ _ valida_abc]
    simp [ErroValidacao.mensagem]

theorem valida_100_00 : ContaBancaria.validar_valor (.str "100.00") = .ok 100 := by
  have := valida_frac "100.00" (['1', '0', '0', '.', '0', '0']) (['1', '0', '0'])
    (['0', '0']) '.' 100 0 100 (by decide) (by decide) (by decide) (by decide) (by decide)
    (by norm_num)
  simpa using this

theorem valida_600 : ContaBancaria.validar_valor (.str "600") = .ok 600 := by
  have := valida_int "600" (['6', '0', '0']) 600 (by decide) (by decide) (by decide) (by decide)
  simpa using this

theorem valida_0_01 : ContaBancaria.validar_valor (.str "0.01") = .ok (1 / 100) := by
  have := valida_frac "0.01" (['0', '.', '0', '1']) (['0']) (['0', '1']) '.' 0 1 (1 / 100)
    (by decide) (by decide) (by decide) (by decide) (by decide) (by norm_num)
  simpa using this

/-- C9: fresh account with default limits (per-withdrawal 500, daily 3):
depositing "100.00" succeeds leaving balance 100; withdrawing "600"
fails with the per-transaction-limit error; withdrawing "100.00"
succeeds leaving balance 0; withdrawing "0.01" fails with
insufficient funds. -/
theorem cenario_padrao :
    ContaBancaria.init.depositar (.str "100.00") "t1" =
      ((true, .depositoRealizado 100),
        (⟨100, 500, 3, 0, [⟨"t1", "DEPÓSITO", 100⟩]⟩ : ContaBancaria))
  ∧ (⟨100, 500, 3, 0, [⟨"t1", "DEPÓSITO", 100⟩]⟩ : ContaBancaria).sacar (.str "600") "t2" =
      ((false, .limiteSaque 500),
        (⟨100, 500, 3, 0, [⟨"t1", "DEPÓSITO", 100⟩]⟩ : ContaBancaria))
  ∧ (⟨100, 500, 3, 0, [⟨"t1", "DEPÓSITO", 100⟩]⟩ : ContaBancaria).sacar (.str "100.00") "t3" =
      ((true, .saqueRealizado 100),
        (⟨0, 500, 3, 1, [⟨"t1", "DEPÓSITO", 100⟩, ⟨"t3", "SAQUE", 100⟩]⟩ : ContaBancaria))
  ∧ (⟨0, 500, 3, 1, [⟨"t1", "DEPÓSITO", 100⟩, ⟨"t3", "SAQUE", 100⟩]⟩ : ContaBancaria).sacar
        (.str "0.01") "t4" =
      ((false, .saldoInsuficiente 0),
        (⟨0, 500, 3, 1, [⟨"t1", "DEPÓSITO", 100⟩, ⟨"t3", "SAQUE", 100⟩]⟩ : ContaBancaria)) := by
  refine ⟨?_, ?_, ?_, ?_⟩
  · rw [depositar_sucesso _ _ _ 100 valida_100_00 (by norm_num)]
    norm_num [ContaBancaria.init]
  · rw [sacar_limite_valor _ _ _ 600 valida_600 (by norm_num) (by norm_num) (by norm_num)]
  · rw [sacar_sucesso _ _ _ 100 valida_100_00 (by norm_num) (by norm_num) (by norm_num)
      (by norm_num)]
    norm_num
  · rw [sacar_saldo_insuficiente _ _ _ (1 / 100) valida_0_01 (by norm_num) (by norm_num)
      (by norm_num) (by norm_num)]

theorem decimalDe_centavos (cs : List Char) (h : casaPadraoValor cs = true) :
    ∃ n : ℕ, decimalDe cs = (n : ℚ) / 100 := by
  obtain ⟨⟨ds, resto⟩, hsp⟩ : ∃ p, cs.span (·.isDigit) = p := ⟨_, rfl⟩
  simp only [casaPadraoValor, hsp] at h
  simp only [decimalDe, hsp]
  cases resto with
  | nil => exact ⟨100 * digitosParaNat ds, by push_cast; ring⟩
  | cons p fs =>
      simp only [Bool.and_eq_true, decide_eq_true_eq] at h
      have hlen : fs.length ≤ 2 := h.2.1.2
      have hne : fs ≠ [] := h.2.1.1.2
      match fs, hlen, hne with
      | [f1], _, _ =>
          refine ⟨100 * digitosParaNat ds + 10 * digitosParaNat [f1], ?_⟩
          push_cast
          norm_num
          ring
      | [f1, f2], _, _ =>
          refine ⟨100 * digitosParaNat ds + digitosParaNat [f1, f2], ?_⟩
          push_cast
          norm_num
          ring

/-- C6 (amended): for every STRING input, an amount accepted by
validation comes from a string matching the digits-plus-optional-
separator pattern with at most two fractional digits, and is an exact
whole number of cents (`n / 100`); any string failing the pattern makes
both operations fail with the invalid-format error, before the
positivity check.  (Numeric inputs skip the pattern check - see the
counterexample.) -/
theorem entrada_texto_formato (s : String) (c : ContaBancaria) (t : String) (q : ℚ) :
    (ContaBancaria.validar_valor (.str s) = .ok q →
        casaPadraoValor (normalizar s.toList) = true ∧ ∃ n : ℕ, q = (n : ℚ) / 100)
  ∧ (casaPadraoValor (normalizar s.toList) = false →
        (c.depositar (.str s) t).1 = (false, .formatoInvalido)
      ∧ (c.sacar (.str s) t).1 = (false, .formatoInvalido)) := by
  constructor
  · intro hok
    rw [validar_valor_str] at hok
    by_cases hm : casaPadraoValor (normalizar s.toList)
    · rw [if_pos hm] at hok
      refine ⟨hm, ?_⟩
      obtain ⟨n, hn⟩ := decimalDe_centavos _ hm
      exact ⟨n, by rw [← hn]; exact (Except.ok.injEq _ _ ▸ hok).symm⟩
    · rw [if_neg hm] at hok
      cases hok
  · intro hm
    have herr := validar_err s hm
    rw [depositar_parse_falha c _ t _ herr, sacar_parse_falha c _ t _ herr]
    exact ⟨rfl, rfl⟩

/-- C6 counterexample: numeric inputs bypass the format check, so the
original claim fails for them: deposit of the number `-5` yields the
invalid-amount error, not invalid-format, and deposit of the number
`10.555` (three fractional digits) is accepted and applied exactly. -/
theorem entrada_numerica_ignora_formato :
    ContaBancaria.validar_valor (.num (-5)) = .ok (-5)
  ∧ (ContaBancaria.init.depositar (.num (-5)) "t").1 = (false, .valorInvalido)
  ∧ (ContaBancaria.init.depositar (.num (-5)) "t").1 ≠ (false, .formatoInvalido)
  ∧ (ContaBancaria.init.depositar (.num (10.555 : ℚ)) "t").1.1 = true
  ∧ (ContaBancaria.init.depositar (.num (10.555 : ℚ)) "t").2.saldo = 10.555 := by
  refine ⟨rfl, ?_, ?_, ?_, ?_⟩
  · rw [depositar_nao_positivo _ (.num (-5)) _ (-5) rfl (by norm_num)]
  · rw [depositar_nao_positivo _ (.num (-5)) _ (-5) rfl (by norm_num)]
    simp
  · rw [depositar_sucesso _ (.num (10.555 : ℚ)) _ (10.555 : ℚ) rfl (by norm_num)]
  · rw [depositar_sucesso _ (.num (10.555 : ℚ)) _ (10.555 : ℚ) rfl (by norm_num)]
    norm_num [ContaBancaria.init]

theorem foldl_linhas (f : Operacao → String) :
    ∀ (l : List Operacao) (base : String),
      l.foldl (fun e op => e ++ f op) base = base ++ String.join (l.map f)
  | [], base => by simp [String.join]
  | op :: l, base => by
      rw [List.map_cons, List.foldl_cons, foldl_linhas f l (base ++ f op)]
      have hj : String.join (f op :: l.map f) = f op ++ String.join (l.map f) := by
        apply String.ext
        simp [String.data_join]
      rw [hj, String.append_assoc]

/-- C8: `obter_extrato` leaves the account state unchanged, two
consecutive calls return identical text, and the text is the fixed
header followed by either the placeholder line (empty history) or one
line per recorded transaction in exact insertion order, then the
balance/counter footer. -/
theorem extrato_puro (c : ContaBancaria) :
    (c.obter_extrato).2 = c
  ∧ ((c.obter_extrato).2.obter_extrato).1 = (c.obter_extrato).1
  ∧ (c.historico = [] →
      (c.obter_extrato).1 =
        cabecalhoExtrato ++ "Nenhuma movimentação realizada.\n" ++ rodapeExtrato c)
  ∧ (c.historico ≠ [] →
      (c.obter_extrato).1 =
        cabecalhoExtrato ++ String.join (c.historico.map linhaOperacao) ++ rodapeExtrato c) := by
  refine ⟨rfl, rfl, ?_, ?_⟩
  · intro h
    simp only [ContaBancaria.obter_extrato, h, List.isEmpty_nil, if_pos]
    apply String.ext
    simp [cabecalhoExtrato, rodapeExtrato]
  · intro h
    have hne : c.historico.isEmpty = false := by
      cases hh : c.historico with
      | nil => exact absurd hh h
      | cons a l => rfl
    simp only [ContaBancaria.obter_extrato, hne, Bool.false_eq_true, if_false,
      foldl_linhas linhaOperacao]
    apply String.ext
    simp [cabecalhoExtrato, rodapeExtrato]

theorem saldo_igual_depositos_menos_saques_witness :
    (executar (ContaBancaria.init 500 3)
        (([2, 3] : List ℚ).map fun d => Op.dep (.num d) "t")).saldo = 5 := by
  have h := saldo_igual_depositos_menos_saques 500 3 [] [2, 3] "t" (by norm_num)
  rw [h.2]
  norm_num

theorem sacar_ordem_validacao_witness :
    (⟨10, 500, 3, 0, []⟩ : ContaBancaria).sacar (.num 7) "t" =
      ((true, .saqueRealizado 7),
        (⟨3, 500, 3, 1, [⟨"t", "SAQUE", 7⟩]⟩ : ContaBancaria)) := by
  have h := (sacar_ordem_validacao (⟨10, 500, 3, 0, []⟩ : ContaBancaria) (.num 7) "t" 7 rfl).2.2.2.2
    (by norm_num) (by norm_num) (by norm_num) (by norm_num)
  rw [h]
  norm_num

theorem falha_preserva_estado_witness :
    (ContaBancaria.init.depositar (.str "abc") "t").2 = ContaBancaria.init
  ∧ (ContaBancaria.init.sacar (.num 5) "t").2 = ContaBancaria.init :=
  ⟨(falha_preserva_estado ContaBancaria.init (.str "abc") "t").1
      (by rw [depositar_parse_falha _ _ _ _ valida_abc]),
   (falha_preserva_estado ContaBancaria.init (.num 5) "t").2
      (by rw [sacar_saldo_insuficiente _ (.num 5) _ 5 rfl (by norm_num)
            (by norm_num [ContaBancaria.init]) (by norm_num [ContaBancaria.init])
            (by norm_num [ContaBancaria.init])])⟩

theorem saque_apos_limite_diario_witness :
    (⟨100, 500, 3, 3, []⟩ : ContaBancaria).sacar (.num 50) "t" =
      ((false, .limiteSaquesDiarios 3), (⟨100, 500, 3, 3, []⟩ : ContaBancaria)) :=
  saque_apos_limite_diario _ (.num 50) "t" 50 rfl (by norm_num) (by norm_num)

theorem entrada_texto_formato_witness :
    ((ContaBancaria.init.depositar (.str "12x") "t").1 = (false, .formatoInvalido)
      ∧ (ContaBancaria.init.sacar (.str "12x") "t").1 = (false, .formatoInvalido))
  ∧ (casaPadraoValor (normalizar "10.5".toList) = true
      ∧ ∃ n : ℕ, (21 / 2 : ℚ) = (n : ℚ) / 100) :=
  ⟨(entrada_texto_formato "12x" ContaBancaria.init "t" 0).2 (by decide),
   (entrada_texto_formato "10.5" ContaBancaria.init "t" (21 / 2)).1 valida_10_5⟩

theorem contador_saques_limitado_witness :
    ((executar (ContaBancaria.init 500 3) [.saq (.num 1) "t"]).numero_saques : ℤ) ≤ 3 :=
  (contador_saques_limitado 500 3 (by norm_num) [.saq (.num 1) "t"]
    ContaBancaria.init (.num 1) "t").2.1

theorem extrato_puro_witness :
    ((⟨100, 500, 3, 1, [⟨"d", "DEPÓSITO", 100⟩]⟩ : ContaBancaria).obter_extrato).2 =
      (⟨100, 500, 3, 1, [⟨"d", "DEPÓSITO", 100⟩]⟩ : ContaBancaria)
  ∧ ((⟨100, 500, 3, 1, [⟨"d", "DEPÓSITO", 100⟩]⟩ : ContaBancaria).obter_extrato).1 =
      cabecalhoExtrato ++ String.join ([⟨"d", "DEPÓSITO", 100⟩].map linhaOperacao) ++
        rodapeExtrato (⟨100, 500, 3, 1, [⟨"d", "DEPÓSITO", 100⟩]⟩ : ContaBancaria) := by
  refine ⟨(extrato_puro _).1, (extrato_puro _).2.2.2 ?_⟩
  simp

theorem valor_numerico_direto_witness :
    ContaBancaria.init.depositar (.num (10.555 : ℚ)) "t" =
      ((true, .depositoRealizado (10.555 : ℚ)),
        (⟨10.555, 500, 3, 0, [⟨"t", "DEPÓSITO", (10.555 : ℚ)⟩]⟩ : ContaBancaria))
  ∧ ContaBancaria.init.sacar (.num (-5)) "t" = ((false, .valorInvalido), ContaBancaria.init) := by
  constructor
  · have h := (valor_numerico_direto (10.555 : ℚ) ContaBancaria.init "t").2.2 (by norm_num)
    rw [h]
    norm_num [ContaBancaria.init]
  · exact ((valor_numerico_direto (-5) ContaBancaria.init "t").2.1 (by norm_num)).2
